import Mathlib

/-!
Verification development for the civil_ai footing-design engine
(backend/footing.py, backend/punching.py, backend/serviceability.py,
backend/combined_footing.py).

Modelling conventions:
* Python floats are embedded as exact rationals (ℚ).
* `math.pi` is the exact value of the IEEE-754 double constant `math.pi`.
* `math.sqrt` is an explicit function parameter `sq : ℚ → ℚ`; places where
  Python would raise (sqrt of a negative, division by zero) return `none`
  or an error value instead.
* Python `round(x, n)` is round-half-to-even on the exact value.
* Python `int(x)` truncates toward zero.
* Python truthiness of numbers (`x or d`) is modelled explicitly.
-/

/-- Python `int(x)`: truncation toward zero. -/
def pyInt (x : ℚ) : ℤ := if 0 ≤ x then ⌊x⌋ else ⌈x⌉

/-- Round to the nearest integer, ties to even (Python `round`). -/
def roundHalfEvenZ (x : ℚ) : ℤ :=
  if x - (⌊x⌋ : ℚ) < 1/2 then ⌊x⌋
  else if 1/2 < x - (⌊x⌋ : ℚ) then ⌊x⌋ + 1
  else if Even ⌊x⌋ then ⌊x⌋ else ⌊x⌋ + 1

/-- Python `round(x, n)` on exact rationals. -/
def round_py (n : ℕ) (x : ℚ) : ℚ := (roundHalfEvenZ (x * (10:ℚ)^n) : ℚ) / (10:ℚ)^n

/-- Exact value of the IEEE-754 double `math.pi`. -/
def piQ : ℚ := 884279719003555 / 281474976710656

/-- Python `a or b` for a possibly-missing number: `b` when `a` is `None` or `0`. -/
def getOr (o : Option ℚ) (d : ℚ) : ℚ :=
  match o with
  | some v => if v = 0 then d else v
  | none => d

/-- Python `a or b` on two numbers. -/
def orQ (x y : ℚ) : ℚ := if x = 0 then y else x

/-- Python truthiness of an optional number. -/
def truthy (o : Option ℚ) : Bool :=
  match o with
  | some v => decide (v ≠ 0)
  | none => false

/-- Python `str(a or d)` for an optional string (empty string is falsy). -/
def getOrS (o : Option String) (d : String) : String :=
  match o with
  | some s => if s = "" then d else s
  | none => d

/-- A sub-check slot: either a computed result or an embedded error marker
(Python dict `{"error": msg}` produced by the `try/except` wrappers). -/
inductive SubResult (α : Type) where
  | ok (val : α)
  | error (msg : String)
deriving DecidableEq, Repr

/-! ## Punching-shear checker (backend/punching.py, `punching_check_aci`) -/

/-- `_area_of_bar_mm2` from punching.py. -/
def area_of_bar_mm2 (dia_mm : ℚ) : ℚ := piQ * dia_mm ^ 2 / 4

/-- `d_eff_mm = max(10.0, 0.8 * pad_depth)` with `pad_depth = max(1.0, pad_depth_mm)`. -/
def punching_d_eff_mm (pad_depth_mm : ℚ) : ℚ := max 10 (0.8 * max 1 pad_depth_mm)

/-- Raw critical perimeter `b0 = 2*(b + d) + 4*d_eff` with clamped column sides. -/
def punching_b0_mm (col_b_mm col_d_mm pad_depth_mm : ℚ) : ℚ :=
  2 * (max 1 col_b_mm + max 1 col_d_mm) + 4 * punching_d_eff_mm pad_depth_mm

/-- `loc = (column_location or "interior").lower()`. -/
def punching_loc (column_location : String) : String :=
  (if column_location = "" then "interior" else column_location).toLower

/-- Perimeter multiplier: corner 0.5, edge 0.75, otherwise 1. -/
def punching_perimeter_factor (column_location : String) : ℚ :=
  if punching_loc column_location = "corner" then 0.5
  else if punching_loc column_location = "edge" then 0.75
  else 1

/-- Location-adjusted critical perimeter. -/
def punching_b0_eff_mm (col_b_mm col_d_mm pad_depth_mm : ℚ) (column_location : String) : ℚ :=
  punching_b0_mm col_b_mm col_d_mm pad_depth_mm * punching_perimeter_factor column_location

/-- Eccentricity amplification `1 + min(0.5, ecc / max(0.01, sqrt(b*d)/1000))`. -/
def punching_ecc_amp (sq : ℚ → ℚ) (col_b_mm col_d_mm ecc_x_m ecc_y_m : ℚ) : ℚ :=
  1 + min 0.5 (max |ecc_x_m| |ecc_y_m| /
    max 0.01 (sq (max 1 col_b_mm * max 1 col_d_mm) / 1000))

/-- Adjusted punching demand `Vu_adj_N = Pu_N * ecc_amp * alpha`. -/
def punching_Vu_adj_N (sq : ℚ → ℚ)
    (Pu_kN col_b_mm col_d_mm ecc_x_m ecc_y_m alpha : ℚ) : ℚ :=
  Pu_kN * 1000 * punching_ecc_amp sq col_b_mm col_d_mm ecc_x_m ecc_y_m * alpha

/-- Concrete shear-capacity stress `v_c = 0.33*sqrt(max(1, fc))` (MPa). -/
def punching_vc_MPa (sq : ℚ → ℚ) (fc_MPa : ℚ) : ℚ := 0.33 * sq (max 1 fc_MPa)

/-- Concrete shear capacity `Vc_N = v_c * (b0_eff * d_eff)`. -/
def punching_Vc_N (sq : ℚ → ℚ) (col_b_mm col_d_mm pad_depth_mm fc_MPa : ℚ)
    (column_location : String) : ℚ :=
  punching_vc_MPa sq fc_MPa *
    (punching_b0_eff_mm col_b_mm col_d_mm pad_depth_mm column_location *
      punching_d_eff_mm pad_depth_mm)

/-- Reduced capacity `phiVc_N = phi * Vc_N`. -/
def punching_phiVc_N (sq : ℚ → ℚ) (col_b_mm col_d_mm pad_depth_mm fc_MPa phi : ℚ)
    (column_location : String) : ℚ :=
  phi * punching_Vc_N sq col_b_mm col_d_mm pad_depth_mm fc_MPa column_location

/-- Result record of `punching_check_aci` (the `results` sub-dict; the echoed
`inputs` sub-dict and constant note strings are omitted). -/
structure PunchResult where
  Vu_N : ℚ
  Vu_adj_N : ℚ
  v_u_MPa : ℚ
  vc_MPa : ℚ
  Vc_N : ℚ
  phiVc_N : ℚ
  utilization_percent : ℚ
  punching_safe : Bool
  b0_mm : ℚ
  b0_eff_mm : ℚ
  d_eff_mm : ℚ
  needs_shear_reinf : Bool
  Av_over_s_mm2_per_mm : Option ℚ
  recommended_stirrup_dia_mm : Option ℤ
  recommended_spacing_mm : Option ℚ
deriving DecidableEq, Repr

/-- `punching_check_aci` from punching.py.  `none` marks the places where the
Python code could raise (sqrt of a negative number, division by zero); the
totality theorem shows these never fire. -/
def punching_check_aci (sq : ℚ → ℚ)
    (Pu_kN col_b_mm col_d_mm pad_depth_mm fc_MPa phi : ℚ)
    (column_location : String) (ecc_x_m ecc_y_m alpha : ℚ) : Option PunchResult :=
  if 0 ≤ max 1 col_b_mm * max 1 col_d_mm then
    if max 0.01 (sq (max 1 col_b_mm * max 1 col_d_mm) / 1000) = 0 then none else
    let de := punching_d_eff_mm pad_depth_mm
    let b0 := punching_b0_mm col_b_mm col_d_mm pad_depth_mm
    let b0e := punching_b0_eff_mm col_b_mm col_d_mm pad_depth_mm column_location
    let Vu := Pu_kN * 1000
    let Vadj := punching_Vu_adj_N sq Pu_kN col_b_mm col_d_mm ecc_x_m ecc_y_m alpha
    if b0e * de = 0 then none else
    let v_u := Vadj / (b0e * de) / 1000000 * 1000000
    if 0 ≤ max 1 fc_MPa then
      let v_c := punching_vc_MPa sq fc_MPa
      let Vc := v_c * (b0e * de)
      let phiVc := phi * Vc
      let util := if 0 < phiVc then Vadj / phiVc * 100 else 999.9
      if phiVc ≥ Vadj then
        some { Vu_N := Vu, Vu_adj_N := round_py 2 Vadj, v_u_MPa := round_py 6 v_u,
               vc_MPa := round_py 6 v_c, Vc_N := round_py 2 Vc,
               phiVc_N := round_py 2 phiVc, utilization_percent := round_py 2 util,
               punching_safe := true, b0_mm := round_py 2 b0,
               b0_eff_mm := round_py 2 b0e, d_eff_mm := round_py 2 de,
               needs_shear_reinf := false, Av_over_s_mm2_per_mm := none,
               recommended_stirrup_dia_mm := none, recommended_spacing_mm := none }
      else
        if 0.87 * 415 * de = 0 then none else
        let AvS := (Vadj - phiVc) / (0.87 * 415 * de)
        let capSp := min (0.75 * de) 300
        let sp10 := if AvS ≤ 0 then capSp else min (2 * area_of_bar_mm2 10 / AvS) capSp
        let sp8 := if AvS ≤ 0 then capSp else min (2 * area_of_bar_mm2 8 / AvS) capSp
        let chosen : ℤ × ℚ :=
          if sp10 ≥ 75 then (10, round_py 1 sp10)
          else if sp8 ≥ 75 then (8, round_py 1 sp8)
          else (10, (pyInt capSp : ℚ))
        some { Vu_N := Vu, Vu_adj_N := round_py 2 Vadj, v_u_MPa := round_py 6 v_u,
               vc_MPa := round_py 6 v_c, Vc_N := round_py 2 Vc,
               phiVc_N := round_py 2 phiVc, utilization_percent := round_py 2 util,
               punching_safe := false, b0_mm := round_py 2 b0,
               b0_eff_mm := round_py 2 b0e, d_eff_mm := round_py 2 de,
               needs_shear_reinf := true,
               Av_over_s_mm2_per_mm := some (round_py 9 AvS),
               recommended_stirrup_dia_mm := some chosen.1,
               recommended_spacing_mm := some chosen.2 }
    else none
  else none

/-! ## Serviceability checker (backend/serviceability.py, `crack_width_check`) -/

/-- The crack-width estimate `w_mm = k * 0.00018 * (s - 2*cover) * f_s`
with the source's input clamps applied. -/
def crack_w_mm (bar_spacing_mm cover_mm stress_steel_MPa bar_dia_mm k_factor : ℚ) : ℚ :=
  k_factor * 0.00018 * (max 10 bar_spacing_mm - 2 * max 5 cover_mm) * max 0 stress_steel_MPa

/-- Result record of `crack_width_check` (clamped inputs echo plus results;
the constant note string is omitted). -/
structure CrackResult where
  bar_spacing_mm : ℚ
  cover_mm : ℚ
  stress_steel_MPa : ℚ
  bar_dia_mm : ℚ
  k_factor : ℚ
  estimated_mm : ℚ
  allowable_mm : ℚ
  ok : Bool
deriving DecidableEq, Repr

/-- `crack_width_check` from serviceability.py. -/
def crack_width_check (bar_spacing_mm cover_mm stress_steel_MPa : ℚ)
    (bar_dia_mm : ℚ := 12) (k_factor : ℚ := 1) : CrackResult :=
  { bar_spacing_mm := max 10 bar_spacing_mm,
    cover_mm := max 5 cover_mm,
    stress_steel_MPa := max 0 stress_steel_MPa,
    bar_dia_mm := max 6 bar_dia_mm,
    k_factor := k_factor,
    estimated_mm :=
      round_py 4 (crack_w_mm bar_spacing_mm cover_mm stress_steel_MPa bar_dia_mm k_factor),
    allowable_mm := 0.3,
    ok := decide (crack_w_mm bar_spacing_mm cover_mm stress_steel_MPa bar_dia_mm k_factor ≤ 0.3) }

/-! ## Footing sizing engine (backend/footing.py, `run_footing_design`) -/

/-- `FootingInput` (pydantic model in footing.py). -/
structure FootingInput where
  Pu_kN : ℚ
  col_b_mm : Option ℚ := none
  col_d_mm : Option ℚ := none
  soil_allow_kN_per_m2 : ℚ
  pad_depth_mm : ℚ
  fc_MPa : ℚ
  fy_MPa : ℚ
  eccentricity_x_m : Option ℚ := some 0
  eccentricity_y_m : Option ℚ := some 0
  assumed_side_m : Option ℚ := none
  cover_mm : Option ℚ := some 25
  bar_dia_mm : Option ℚ := some 10
  target_spacing_mm : Option ℚ := some 150
deriving DecidableEq, Repr

/-- `col_b_mm = float(inp.col_b_mm) if inp.col_b_mm is not None else 300.0`. -/
def footing_col_b (inp : FootingInput) : ℚ := inp.col_b_mm.getD 300

/-- Column depth default, as `footing_col_b`. -/
def footing_col_d (inp : FootingInput) : ℚ := inp.col_d_mm.getD 300

/-- Cover default (`is not None` semantics). -/
def footing_cover (inp : FootingInput) : ℚ := inp.cover_mm.getD 25

/-- Bar diameter default (`is not None` semantics). -/
def footing_bar_dia (inp : FootingInput) : ℚ := inp.bar_dia_mm.getD 10

/-- Requested spacing default (`is not None` semantics). -/
def footing_spacing0 (inp : FootingInput) : ℚ := inp.target_spacing_mm.getD 150

/-- `spacing_mm` after the `if spacing_mm <= 0: spacing_mm = 150.0` correction. -/
def footing_spacing (inp : FootingInput) : ℚ :=
  if footing_spacing0 inp ≤ 0 then 150 else footing_spacing0 inp

/-- `A_req_m2 = Pu_N / q_allow` with `Pu_N = Pu_kN*1000`, `q_allow = soil*1000`. -/
def footing_A_req_m2 (inp : FootingInput) : ℚ :=
  inp.Pu_kN * 1000 / (inp.soil_allow_kN_per_m2 * 1000)

/-- Pad side: a positive designer-assumed side, else `sqrt(A_req)`. -/
def footing_side_m (sq : ℚ → ℚ) (inp : FootingInput) : ℚ :=
  match inp.assumed_side_m with
  | some s => if 0 < s then s else sq (footing_A_req_m2 inp)
  | none => sq (footing_A_req_m2 inp)

/-- Used bearing area: `side*side` for an assumed side, else `A_req`. -/
def footing_A_used_m2 (sq : ℚ → ℚ) (inp : FootingInput) : ℚ :=
  match inp.assumed_side_m with
  | some s => if 0 < s then s * s else footing_A_req_m2 inp
  | none => footing_A_req_m2 inp

/-- `ecc = max(abs(ecc_x or 0), abs(ecc_y or 0))`. -/
def footing_ecc (inp : FootingInput) : ℚ :=
  max |inp.eccentricity_x_m.getD 0| |inp.eccentricity_y_m.getD 0|

/-- Eccentricity amplification `1 + min(0.5, ecc/side)` when `ecc > 0` and `side > 0`. -/
def footing_ecc_effect (sq : ℚ → ℚ) (inp : FootingInput) : ℚ :=
  if 0 < footing_ecc inp ∧ 0 < footing_side_m sq inp then
    1 + min 0.5 (footing_ecc inp / footing_side_m sq inp)
  else 1

/-- Final used area `A_final_m2 = A_used_m2 * ecc_effect`. -/
def footing_A_final_m2 (sq : ℚ → ℚ) (inp : FootingInput) : ℚ :=
  footing_A_used_m2 sq inp * footing_ecc_effect sq inp

/-- `usable_width_mm = max(1.0, side_mm - 2*cover)`. -/
def footing_usable_width (sq : ℚ → ℚ) (inp : FootingInput) : ℚ :=
  max 1 (footing_side_m sq inp * 1000 - 2 * footing_cover inp)

/-- Initial bars per row: `max(2, floor(usable/spacing))` (plus the redundant
`if n_per_row < 2` correction from the source). -/
def footing_n_per_row0 (sq : ℚ → ℚ) (inp : FootingInput) : ℤ :=
  let n := max 2 ⌊footing_usable_width sq inp / footing_spacing inp⌋
  if n < 2 then 2 else n

/-- `single_bar_area_mm2 = pi * (bar_dia/2)^2`. -/
def footing_bar_area (inp : FootingInput) : ℚ := piQ * (footing_bar_dia inp / 2) ^ 2

/-- Required steel `As_req_mm2 = max(100, A_final_mm2 * 0.003)`. -/
def footing_As_req_mm2 (sq : ℚ → ℚ) (inp : FootingInput) : ℚ :=
  max 100 (footing_A_final_m2 sq inp * 1000000 * 0.003)

/-- Initially provided steel: two layers of `n_per_row` bars. -/
def footing_provided0 (sq : ℚ → ℚ) (inp : FootingInput) : ℚ :=
  ((footing_n_per_row0 sq inp * 2 : ℤ) : ℚ) * footing_bar_area inp

/-- The single-pass reinforcement top-up: returns the final
`(n_per_row, provided_As_mm2)`.  `none` is the `ZeroDivisionError` Python
raises at `missing / single_bar_area` when the bar area is zero. -/
def footing_topup (sq : ℚ → ℚ) (inp : FootingInput) : Option (ℤ × ℚ) :=
  if footing_provided0 sq inp < footing_As_req_mm2 sq inp then
    if footing_bar_area inp = 0 then none
    else
      let missing := footing_As_req_mm2 sq inp - footing_provided0 sq inp
      let add_bars : ℤ := ⌈missing / footing_bar_area inp⌉
      let add_per_row : ℤ := ⌈((add_bars : ℚ) / 2 : ℚ)⌉
      let n := footing_n_per_row0 sq inp + add_per_row
      some (n, ((n * 2 : ℤ) : ℚ) * footing_bar_area inp)
  else some (footing_n_per_row0 sq inp, footing_provided0 sq inp)

/-- Steel stress heuristic for the serviceability call:
`fy/2` when `fy` is truthy, else `200`. -/
def footing_stress_steel (inp : FootingInput) : ℚ :=
  if inp.fy_MPa = 0 then 200 else inp.fy_MPa / 2

/-- The `drawing_params` record assembled by the engine. -/
structure DrawingParams where
  pad_side_m : ℚ
  pad_depth_mm : ℚ
  cover_mm : ℚ
  bar_dia_mm : ℚ
  n_per_row : ℤ
  n_layers : ℤ
  spacing_mm : ℚ
deriving DecidableEq, Repr

/-- The engine's results record (constant note strings omitted). -/
structure FootingResult where
  A_req_m2 : ℚ
  side_m : ℚ
  A_used_m2 : ℚ
  eccentricity_m : ℚ
  ecc_effect_factor : ℚ
  A_final_m2 : ℚ
  pad_depth_mm : ℚ
  As_req_mm2 : ℚ
  bar_dia_mm : ℚ
  spacing_mm : ℚ
  n_per_row : ℤ
  n_layers : ℤ
  n_bars_total : ℤ
  provided_As_mm2 : ℚ
  drawing_params : DrawingParams
  punching : SubResult PunchResult
  serviceability : SubResult CrackResult
deriving DecidableEq, Repr

/-- Hard failures of `run_footing_design`: the two explicit `ValueError`s and
the `ZeroDivisionError` of the top-up step with a zero bar area. -/
inductive FootErr where
  | invalidInput (msg : String)
  | zeroDivision
deriving DecidableEq, Repr

/-- Outcome of one engine call. -/
inductive FRes where
  | ok (res : FootingResult)
  | error (e : FootErr)
deriving DecidableEq, Repr

/-- The `try/except` wrapper around the punching call: an exception becomes
the embedded marker `punching check failed: <e>`. -/
def mapPunchSub (s : SubResult PunchResult) : SubResult PunchResult :=
  match s with
  | .ok r => .ok r
  | .error e => .error ("punching check failed: " ++ e)

/-- The `try/except` wrapper around the serviceability call. -/
def mapCrackSub (s : SubResult CrackResult) : SubResult CrackResult :=
  match s with
  | .ok r => .ok r
  | .error e => .error ("crack width check failed: " ++ e)

/-- `run_footing_design` with the two sub-checks abstracted as parameters
(the shape of the `try/except` blocks at lines 188-212 of footing.py);
`write_reports=False`, so no report side effects. -/
def run_footing_design_with (sq : ℚ → ℚ)
    (pf : ℚ → ℚ → ℚ → ℚ → ℚ → SubResult PunchResult)
    (cf : ℚ → ℚ → ℚ → SubResult CrackResult)
    (inp : FootingInput) : FRes :=
  if inp.soil_allow_kN_per_m2 * 1000 ≤ 0 then
    .error (.invalidInput "soil_allow_kN_per_m2 must be > 0")
  else if footing_A_req_m2 inp ≤ 0 then
    .error (.invalidInput "computed required area <= 0")
  else
    match footing_topup sq inp with
    | none => .error .zeroDivision
    | some pr =>
      let spacing := footing_spacing inp
      let dp : DrawingParams :=
        { pad_side_m := round_py 3 (footing_side_m sq inp),
          pad_depth_mm := inp.pad_depth_mm,
          cover_mm := footing_cover inp,
          bar_dia_mm := footing_bar_dia inp,
          n_per_row := pr.1, n_layers := 2,
          spacing_mm := round_py 1 spacing }
      .ok
        { A_req_m2 := round_py 6 (footing_A_req_m2 inp),
          side_m := round_py 3 (footing_side_m sq inp),
          A_used_m2 := round_py 6 (footing_A_used_m2 sq inp),
          eccentricity_m := round_py 3 (footing_ecc inp),
          ecc_effect_factor := round_py 3 (footing_ecc_effect sq inp),
          A_final_m2 := round_py 6 (footing_A_final_m2 sq inp),
          pad_depth_mm := inp.pad_depth_mm,
          As_req_mm2 := round_py 2 (footing_As_req_mm2 sq inp),
          bar_dia_mm := footing_bar_dia inp,
          spacing_mm := round_py 1 spacing,
          n_per_row := pr.1, n_layers := 2, n_bars_total := pr.1 * 2,
          provided_As_mm2 := round_py 2 pr.2,
          drawing_params := dp,
          punching :=
            mapPunchSub (pf inp.Pu_kN (footing_col_b inp) (footing_col_d inp)
              inp.pad_depth_mm inp.fc_MPa),
          serviceability :=
            mapCrackSub (cf (round_py 1 spacing) (footing_cover inp)
              (footing_stress_steel inp)) }

/-- The engine's actual punching sub-check (default keyword arguments of
`punching_check_aci`: phi 0.75, interior, zero eccentricities, alpha 1). -/
def punch_sub (sq : ℚ → ℚ) : ℚ → ℚ → ℚ → ℚ → ℚ → SubResult PunchResult :=
  fun pu b d dep fc =>
    match punching_check_aci sq pu b d dep fc 0.75 "interior" 0 0 1 with
    | some r => .ok r
    | none => .error "math domain error"

/-- The engine's actual serviceability sub-check (crack width, defaults
bar_dia 12 and k 1). -/
def crack_sub : ℚ → ℚ → ℚ → SubResult CrackResult :=
  fun s c st => .ok (crack_width_check s c st 12 1)

/-- `run_footing_design(inp, write_reports=False)`. -/
def run_footing_design (sq : ℚ → ℚ) (inp : FootingInput) : FRes :=
  run_footing_design_with sq (punch_sub sq) crack_sub inp

/-! ## Combined footing orchestrator (backend/combined_footing.py, `design_combined`) -/

/-- The parameter dict of `design_combined` (absent keys are `none`). -/
structure CombinedParams where
  Pu_kN : Option ℚ := none
  P1_kN : Option ℚ := none
  P2_kN : Option ℚ := none
  soil_allow_kN_per_m2 : Option ℚ := none
  soil_allow : Option ℚ := none
  pad_depth_mm : Option ℚ := none
  fc_MPa : Option ℚ := none
  fy_MPa : Option ℚ := none
  eccentricity_x_m : Option ℚ := none
  eccentricity_y_m : Option ℚ := none
  assumed_side_m : Option ℚ := none
  cover_mm : Option ℚ := none
  bar_dia_mm : Option ℚ := none
  target_spacing_mm : Option ℚ := none
  spacing_mm : Option ℚ := none
  col_b_mm : Option ℚ := none
  col_d_mm : Option ℚ := none
  col1_b_mm : Option ℚ := none
  col1_d_mm : Option ℚ := none
  phi : Option ℚ := none
  column_location : Option String := none
deriving DecidableEq, Repr

/-- `mode = "single" if p.get("Pu_kN") else "two_column"`. -/
def combined_mode (p : CombinedParams) : String :=
  if truthy p.Pu_kN then "single" else "two_column"

/-- Two-column `total_load_kN = P1 + P2` (each `or 0.0`). -/
def combined_total_load (p : CombinedParams) : ℚ := getOr p.P1_kN 0 + getOr p.P2_kN 0

/-- `soil_allow = float(p.get("soil_allow_kN_per_m2") or 150.0)`. -/
def combined_soil (p : CombinedParams) : ℚ := getOr p.soil_allow_kN_per_m2 150

/-- Two-column `required_area_m2 = (total_load*1000) / (soil_allow*1000)`. -/
def combined_required_area (p : CombinedParams) : ℚ :=
  combined_total_load p * 1000 / (combined_soil p * 1000)

/-- Two-column `pad_side_m = math.sqrt(required_area_m2)`. -/
def combined_pad_side (sq : ℚ → ℚ) (p : CombinedParams) : ℚ :=
  sq (combined_required_area p)

/-- The FootingInput delegated to the engine in two-column mode (combined
load, column-1 geometry, computed pad side as the assumed side). -/
def combined_inp (sq : ℚ → ℚ) (p : CombinedParams) : FootingInput :=
  { Pu_kN := combined_total_load p,
    col_b_mm := some (getOr p.col1_b_mm 300),
    col_d_mm := some (getOr p.col1_d_mm 300),
    soil_allow_kN_per_m2 := combined_soil p,
    pad_depth_mm := getOr p.pad_depth_mm 500,
    fc_MPa := getOr p.fc_MPa 25,
    fy_MPa := getOr p.fy_MPa 415,
    eccentricity_x_m := some (getOr p.eccentricity_x_m 0),
    eccentricity_y_m := some (getOr p.eccentricity_y_m 0),
    assumed_side_m := some (combined_pad_side sq p),
    cover_mm := some (getOr p.cover_mm 25),
    bar_dia_mm := some (getOr p.bar_dia_mm 10),
    target_spacing_mm := some (getOr p.target_spacing_mm 150) }

/-- The FootingInput built in single (legacy) mode. -/
def single_inp (p : CombinedParams) : FootingInput :=
  { Pu_kN := p.Pu_kN.getD 0,
    col_b_mm := some (getOr p.col_b_mm 300),
    col_d_mm := some (getOr p.col_d_mm 300),
    soil_allow_kN_per_m2 := getOr p.soil_allow_kN_per_m2 150,
    pad_depth_mm := getOr p.pad_depth_mm 500,
    fc_MPa := getOr p.fc_MPa 25,
    fy_MPa := getOr p.fy_MPa 415,
    eccentricity_x_m := some (getOr p.eccentricity_x_m 0),
    eccentricity_y_m := some (getOr p.eccentricity_y_m 0),
    assumed_side_m := if truthy p.assumed_side_m then some (p.assumed_side_m.getD 0) else none,
    cover_mm := some (getOr p.cover_mm 25),
    bar_dia_mm := some (getOr p.bar_dia_mm 10),
    target_spacing_mm := some (getOr p.target_spacing_mm 150) }

/-- `total_load_kN` as used for the combined-level re-checks. -/
def design_total_load (p : CombinedParams) : ℚ :=
  if combined_mode p = "single" then p.Pu_kN.getD 0 else combined_total_load p

/-- The `results` record of `design_combined` (`τ` is the takeoff summary type
of the external drawings collaborator). -/
structure CombinedResults (τ : Type) where
  mode : String
  total_load_kN : ℚ
  soil_allow_kN_per_m2 : ℚ
  required_area_m2 : ℚ
  pad_side_m : ℚ
  drawing_params : DrawingParams
  engine_results : FootingResult
  punching : SubResult PunchResult
  serviceability : SubResult CrackResult
  takeoff : Option τ

/-- `{"inputs": ..., "results": ...}` returned by `design_combined`. -/
structure CombinedOutput (τ : Type) where
  inputs : CombinedParams
  results : CombinedResults τ

/-- Outcome of a `design_combined` call (engine `ValueError`s propagate). -/
inductive CRes (τ : Type) where
  | ok (out : CombinedOutput τ)
  | error (e : FootErr)

/-- The combined-level punching re-check with its `try/except` wrapper
(column-1 geometry falling back to the single-column keys). -/
def combined_punch_slot (sq : ℚ → ℚ) (p : CombinedParams) : SubResult PunchResult :=
  match punching_check_aci sq (design_total_load p)
      (getOr p.col1_b_mm (getOr p.col_b_mm 300))
      (getOr p.col1_d_mm (getOr p.col_d_mm 300))
      (getOr p.pad_depth_mm 500) (getOr p.fc_MPa 25) (getOr p.phi 0.75)
      (getOrS p.column_location "interior")
      (getOr p.eccentricity_x_m 0) (getOr p.eccentricity_y_m 0) 1 with
  | some r => .ok r
  | none => .error "punching check failed: math domain error"

/-- The combined-level serviceability re-check (spacing/cover taken from the
engine results with parameter fallbacks, stress `fy/2`). -/
def combined_crack_slot (p : CombinedParams) (er : FootingResult) : SubResult CrackResult :=
  .ok (crack_width_check
    (orQ er.spacing_mm (getOr p.target_spacing_mm (getOr p.spacing_mm 150)))
    (orQ er.drawing_params.cover_mm (getOr p.cover_mm 25))
    (getOr p.fy_MPa 415 / 2) (getOr p.bar_dia_mm 12) 1)

/-- The local `pad_side_m` variable of `design_combined`. -/
def combined_pad_side_var (sq : ℚ → ℚ) (p : CombinedParams) (er : FootingResult) : ℚ :=
  if combined_mode p = "single" then orQ er.side_m er.drawing_params.pad_side_m
  else combined_pad_side sq p

/-- The `results` record assembled by `design_combined` from the engine
result `er`. -/
def combined_results_of {τ : Type} (sq : ℚ → ℚ) (tkf : DrawingParams → Option τ)
    (p : CombinedParams) (er : FootingResult) : CombinedResults τ :=
  { mode := combined_mode p,
    total_load_kN := round_py 3 (design_total_load p),
    soil_allow_kN_per_m2 := getOr p.soil_allow_kN_per_m2 (getOr p.soil_allow 150),
    required_area_m2 := round_py 6 er.A_final_m2,
    pad_side_m := round_py 3 (orQ er.side_m (combined_pad_side_var sq p er)),
    drawing_params := er.drawing_params,
    engine_results := er,
    punching := combined_punch_slot sq p,
    serviceability := combined_crack_slot p er,
    takeoff := tkf er.drawing_params }

/-- `design_combined(params, write_reports=False)`; the takeoff estimator of
the drawings collaborator is a parameter (`none` models its `except` branch
that degrades to an empty dict). -/
def design_combined {τ : Type} (sq : ℚ → ℚ) (tkf : DrawingParams → Option τ)
    (p : CombinedParams) : CRes τ :=
  match run_footing_design sq
      (if combined_mode p = "single" then single_inp p else combined_inp sq p) with
  | .error e => .error e
  | .ok er => .ok { inputs := p, results := combined_results_of sq tkf p er }

/-! ## Result extractors and witness fixtures -/

/-- Lift a result-record transformation over the engine outcome. -/
def mapFRes (f : FootingResult → FootingResult) : FRes → FRes :=
  fun x => match x with
  | .ok r => .ok (f r)
  | .error e => .error e

/-- Placeholder record used by the result extractors below. -/
def dummyFootingResult : FootingResult :=
  { A_req_m2 := 0, side_m := 0, A_used_m2 := 0, eccentricity_m := 0, ecc_effect_factor := 0,
    A_final_m2 := 0, pad_depth_mm := 0, As_req_mm2 := 0, bar_dia_mm := 0, spacing_mm := 0,
    n_per_row := 0, n_layers := 0, n_bars_total := 0, provided_As_mm2 := 0,
    drawing_params := { pad_side_m := 0, pad_depth_mm := 0, cover_mm := 0, bar_dia_mm := 0,
                        n_per_row := 0, n_layers := 0, spacing_mm := 0 },
    punching := .error "", serviceability := .error "" }

/-- Extract the result of a successful engine call. -/
def frGetOk (x : FRes) : FootingResult :=
  match x with
  | .ok r => r
  | .error _ => dummyFootingResult

/-- Placeholder punching record. -/
def dummyPunchResult : PunchResult :=
  { Vu_N := 0, Vu_adj_N := 0, v_u_MPa := 0, vc_MPa := 0, Vc_N := 0, phiVc_N := 0,
    utilization_percent := 0, punching_safe := false, b0_mm := 0, b0_eff_mm := 0,
    d_eff_mm := 0, needs_shear_reinf := false, Av_over_s_mm2_per_mm := none,
    recommended_stirrup_dia_mm := none, recommended_spacing_mm := none }

/-- Extract the record of a punching check known to succeed. -/
def pGetOk (o : Option PunchResult) : PunchResult := o.getD dummyPunchResult

/-- Extract the output of a successful `design_combined` call. -/
def cGetOk {τ : Type} (x : CRes τ) (p : CombinedParams) : CombinedOutput τ :=
  match x with
  | .ok out => out
  | .error _ =>
    { inputs := p,
      results :=
        { mode := "", total_load_kN := 0, soil_allow_kN_per_m2 := 0, required_area_m2 := 0,
          pad_side_m := 0,
          drawing_params := { pad_side_m := 0, pad_depth_mm := 0, cover_mm := 0,
                              bar_dia_mm := 0, n_per_row := 0, n_layers := 0, spacing_mm := 0 },
          engine_results := dummyFootingResult, punching := .error "",
          serviceability := .error "", takeoff := none } }

/-- A concrete stand-in for `math.sqrt` used in the evaluation witnesses. -/
def sqZero : ℚ → ℚ := fun _ => 0

/-- A concrete well-posed footing input. -/
def footing_witness_input : FootingInput :=
  { Pu_kN := 150, soil_allow_kN_per_m2 := 150, pad_depth_mm := 500, fc_MPa := 25,
    fy_MPa := 415, assumed_side_m := some 2 }

/-- A punching sub-check that always raises. -/
def pfErr : ℚ → ℚ → ℚ → ℚ → ℚ → SubResult PunchResult := fun _ _ _ _ _ => .error "boom"

/-- A serviceability sub-check that always raises. -/
def cfErr : ℚ → ℚ → ℚ → SubResult CrackResult := fun _ _ _ => .error "bang"

/-- A concrete two-column parameter set. -/
def combined_witness_params : CombinedParams :=
  { P1_kN := some 100, P2_kN := some 200, soil_allow_kN_per_m2 := some 150 }

/-! ## Helper lemmas -/

lemma roundHalfEvenZ_bounds (x : ℚ) :
    ⌊x⌋ ≤ roundHalfEvenZ x ∧ roundHalfEvenZ x ≤ ⌊x⌋ + 1 := by
  unfold roundHalfEvenZ
  split_ifs <;> omega

lemma roundHalfEvenZ_mono {x y : ℚ} (h : x ≤ y) : roundHalfEvenZ x ≤ roundHalfEvenZ y := by
  rcases lt_or_le ⌊x⌋ ⌊y⌋ with hf | hf
  · calc roundHalfEvenZ x ≤ ⌊x⌋ + 1 := (roundHalfEvenZ_bounds x).2
      _ ≤ ⌊y⌋ := by omega
      _ ≤ roundHalfEvenZ y := (roundHalfEvenZ_bounds y).1
  · have hf' : ⌊x⌋ ≤ ⌊y⌋ := Int.floor_le_floor h
    have heq : ⌊y⌋ = ⌊x⌋ := le_antisymm hf hf'
    have hr : x - (⌊x⌋ : ℚ) ≤ y - (⌊x⌋ : ℚ) := by linarith
    unfold roundHalfEvenZ
    rw [heq]
    split_ifs <;> first | omega | linarith

lemma round_py_mono (n : ℕ) {x y : ℚ} (h : x ≤ y) : round_py n x ≤ round_py n y := by
  unfold round_py
  have h1 : x * (10:ℚ)^n ≤ y * (10:ℚ)^n :=
    mul_le_mul_of_nonneg_right h (by positivity)
  have h2 : ((roundHalfEvenZ (x * (10:ℚ)^n) : ℚ)) ≤ ((roundHalfEvenZ (y * (10:ℚ)^n) : ℚ)) := by
    exact_mod_cast roundHalfEvenZ_mono h1
  exact div_le_div_of_nonneg_right h2 (by positivity)

lemma piQ_pos : 0 < piQ := by norm_num [piQ]

lemma getOr_ne_zero {o : Option ℚ} {d : ℚ} (hd : d ≠ 0) : getOr o d ≠ 0 := by
  rcases o with _ | v
  · exact hd
  · show (if v = 0 then d else v) ≠ 0
    by_cases hv : v = 0
    · rw [if_pos hv]; exact hd
    · rw [if_neg hv]; exact hv

lemma getOr_some_zero (v : ℚ) : getOr (some v) 0 = v := by
  show (if v = 0 then 0 else v) = v
  by_cases hv : v = 0
  · rw [if_pos hv, hv]
  · rw [if_neg hv]

lemma getOr_some_of_ne {v : ℚ} (hv : v ≠ 0) (d : ℚ) : getOr (some v) d = v := by
  show (if v = 0 then d else v) = v
  rw [if_neg hv]

lemma punching_d_eff_ge (pad : ℚ) : 10 ≤ punching_d_eff_mm pad := le_max_left _ _

lemma punching_pf_pos (loc : String) : 0 < punching_perimeter_factor loc := by
  unfold punching_perimeter_factor
  split_ifs <;> norm_num

lemma punching_b0_pos (b d pad : ℚ) : 0 < punching_b0_mm b d pad := by
  unfold punching_b0_mm
  have h0 := punching_d_eff_ge pad
  have h1 : (1:ℚ) ≤ max 1 b := le_max_left _ _
  have h2 : (1:ℚ) ≤ max 1 d := le_max_left _ _
  linarith

lemma punching_bd_nonneg (b d : ℚ) : 0 ≤ max 1 b * max 1 d :=
  mul_nonneg (le_trans zero_le_one (le_max_left _ _)) (le_trans zero_le_one (le_max_left _ _))

lemma punching_den_ne (sq : ℚ → ℚ) (b d : ℚ) :
    max (0.01:ℚ) (sq (max 1 b * max 1 d) / 1000) ≠ 0 :=
  ne_of_gt (lt_of_lt_of_le (by norm_num) (le_max_left _ _))

lemma punching_b0e_de_ne (b d pad : ℚ) (loc : String) :
    punching_b0_eff_mm b d pad loc * punching_d_eff_mm pad ≠ 0 :=
  ne_of_gt (mul_pos (mul_pos (punching_b0_pos b d pad) (punching_pf_pos loc))
    (lt_of_lt_of_le (by norm_num) (punching_d_eff_ge pad)))

lemma punching_fc_nonneg (fc : ℚ) : 0 ≤ max 1 fc :=
  le_trans zero_le_one (le_max_left _ _)

lemma punching_avden_ne (pad : ℚ) : (0.87 * 415 * punching_d_eff_mm pad : ℚ) ≠ 0 :=
  ne_of_gt (mul_pos (by norm_num) (lt_of_lt_of_le (by norm_num) (punching_d_eff_ge pad)))

/-- The punching check evaluates to `some` of its own extracted record. -/
lemma punching_check_eq_some (sq : ℚ → ℚ) (Pu b d pad fc phi : ℚ) (loc : String)
    (ex ey al : ℚ) :
    punching_check_aci sq Pu b d pad fc phi loc ex ey al
      = some (pGetOk (punching_check_aci sq Pu b d pad fc phi loc ex ey al)) := by
  unfold punching_check_aci
  rw [if_pos (punching_bd_nonneg b d), if_neg (punching_den_ne sq b d),
      if_neg (punching_b0e_de_ne b d pad loc), if_pos (punching_fc_nonneg fc)]
  by_cases hs : phi * (punching_vc_MPa sq fc *
      (punching_b0_eff_mm b d pad loc * punching_d_eff_mm pad)) ≥
      punching_Vu_adj_N sq Pu b d ex ey al
  · rw [if_pos hs]
    rfl
  · rw [if_neg hs, if_neg (punching_avden_ne pad)]
    rfl

lemma footing_bar_area_pos {inp : FootingInput} (h : footing_bar_area inp ≠ 0) :
    0 < footing_bar_area inp := by
  have hsq : 0 ≤ (footing_bar_dia inp / 2) ^ 2 := sq_nonneg _
  have hge : 0 ≤ footing_bar_area inp := by
    unfold footing_bar_area
    exact mul_nonneg piQ_pos.le hsq
  exact lt_of_le_of_ne hge (Ne.symm h)

/-- Core inequality of the top-up step: whenever the step completes it provides
at least the required steel area. -/
lemma footing_topup_ge (sq : ℚ → ℚ) (inp : FootingInput) (pr : ℤ × ℚ)
    (h : footing_topup sq inp = some pr) :
    footing_As_req_mm2 sq inp ≤ pr.2 := by
  unfold footing_topup at h
  by_cases h1 : footing_provided0 sq inp < footing_As_req_mm2 sq inp
  · rw [if_pos h1] at h
    by_cases h2 : footing_bar_area inp = 0
    · rw [if_pos h2] at h; cases h
    · rw [if_neg h2] at h
      cases h
      have ha : 0 < footing_bar_area inp := footing_bar_area_pos h2
      set a := footing_bar_area inp with hadef
      set R := footing_As_req_mm2 sq inp with hRdef
      set P := footing_provided0 sq inp with hPdef
      set n0 := footing_n_per_row0 sq inp with hndef
      set ab : ℤ := ⌈(R - P) / a⌉ with habdef
      set apr : ℤ := ⌈((ab : ℚ) / 2 : ℚ)⌉ with haprdef
      have hab : (R - P) / a ≤ (ab : ℚ) := Int.le_ceil _
      have hapr : (ab : ℚ) / 2 ≤ (apr : ℚ) := Int.le_ceil _
      have h2apr : (ab : ℚ) ≤ 2 * (apr : ℚ) := by linarith
      have hmul : (R - P) ≤ (ab : ℚ) * a := by
        have hstep := mul_le_mul_of_nonneg_right hab ha.le
        rwa [div_mul_cancel₀ _ (ne_of_gt ha)] at hstep
      have hprov0 : P = ((n0 * 2 : ℤ) : ℚ) * a := by
        rw [hPdef, hndef, hadef]; rfl
      show R ≤ (((n0 + apr) * 2 : ℤ) : ℚ) * a
      have hexpand : (((n0 + apr) * 2 : ℤ) : ℚ) * a
          = ((n0 * 2 : ℤ) : ℚ) * a + (2 * (apr : ℚ)) * a := by
        push_cast
        ring
      rw [hexpand, ← hprov0]
      have hmono : (ab : ℚ) * a ≤ (2 * (apr : ℚ)) * a :=
        mul_le_mul_of_nonneg_right h2apr ha.le
      linarith
  · rw [if_neg h1] at h
    cases h
    exact le_of_not_lt h1

lemma footing_topup_isSome (sq : ℚ → ℚ) (inp : FootingInput)
    (h3 : footing_bar_area inp ≠ 0) : ∃ pr, footing_topup sq inp = some pr := by
  unfold footing_topup
  by_cases hlt : footing_provided0 sq inp < footing_As_req_mm2 sq inp
  · rw [if_pos hlt, if_neg h3]; exact ⟨_, rfl⟩
  · rw [if_neg hlt]; exact ⟨_, rfl⟩

/-- The engine succeeds on well-posed inputs; its result is `frGetOk` of itself. -/
lemma run_footing_design_ok (sq : ℚ → ℚ) (inp : FootingInput)
    (h1 : 0 < inp.soil_allow_kN_per_m2) (h2 : 0 < footing_A_req_m2 inp)
    (h3 : footing_bar_area inp ≠ 0) :
    run_footing_design sq inp = FRes.ok (frGetOk (run_footing_design sq inp)) := by
  unfold run_footing_design run_footing_design_with
  rw [if_neg (not_le.mpr (by linarith : (0:ℚ) < inp.soil_allow_kN_per_m2 * 1000)),
      if_neg (not_le.mpr h2)]
  rcases footing_topup_isSome sq inp h3 with ⟨pr, hpr⟩
  rw [hpr]
  rfl

/-! ## Claim theorems -/

/-- Claim C1: for every footing input whose design call succeeds, the
single-pass reinforcement top-up leaves the provided steel area at least
the required steel area (`provided_As_mm2 >= As_req_mm2` in the result). -/
theorem footing_provided_ge_required (sq : ℚ → ℚ) (inp : FootingInput) (res : FootingResult)
    (h : run_footing_design sq inp = FRes.ok res) :
    res.As_req_mm2 ≤ res.provided_As_mm2 := by
  unfold run_footing_design run_footing_design_with at h
  by_cases hq : inp.soil_allow_kN_per_m2 * 1000 ≤ 0
  · rw [if_pos hq] at h; cases h
  · rw [if_neg hq] at h
    by_cases hA : footing_A_req_m2 inp ≤ 0
    · rw [if_pos hA] at h; cases h
    · rw [if_neg hA] at h
      rcases htu : footing_topup sq inp with _ | pr
      · rw [htu] at h; cases h
      · rw [htu] at h
        cases h
        exact round_py_mono 2 (footing_topup_ge sq inp pr htu)

/-- Claim C1 witness: evaluation at a concrete well-posed input. -/
theorem footing_provided_ge_required_witness :
    (frGetOk (run_footing_design sqZero footing_witness_input)).As_req_mm2
      ≤ (frGetOk (run_footing_design sqZero footing_witness_input)).provided_As_mm2 :=
  footing_provided_ge_required sqZero footing_witness_input _
    (run_footing_design_ok sqZero footing_witness_input
      (by norm_num [footing_witness_input])
      (by norm_num [footing_A_req_m2, footing_witness_input])
      (by norm_num [footing_bar_area, footing_bar_dia, footing_witness_input,
        Option.getD, piQ]))

/-- Claim C2: `punching_safe` is true iff `phiVc_N >= Vu_adj_N` (the two source
variables), and the shear-reinforcement recommendation fields
(`needs_shear_reinf`, stirrup diameter, spacing) are populated iff the check
is unsafe. -/
theorem punching_safe_iff_cap (sq : ℚ → ℚ) (Pu b d pad fc phi : ℚ) (loc : String)
    (ex ey al : ℚ) (res : PunchResult)
    (h : punching_check_aci sq Pu b d pad fc phi loc ex ey al = some res) :
    (res.punching_safe = true ↔
        punching_phiVc_N sq b d pad fc phi loc ≥ punching_Vu_adj_N sq Pu b d ex ey al)
    ∧ (res.needs_shear_reinf = true ↔ res.punching_safe = false)
    ∧ (res.recommended_stirrup_dia_mm.isSome = true ↔ res.punching_safe = false)
    ∧ (res.recommended_spacing_mm.isSome = true ↔ res.punching_safe = false) := by
  unfold punching_check_aci at h
  rw [if_pos (punching_bd_nonneg b d), if_neg (punching_den_ne sq b d),
      if_neg (punching_b0e_de_ne b d pad loc), if_pos (punching_fc_nonneg fc)] at h
  by_cases hs : phi * (punching_vc_MPa sq fc *
      (punching_b0_eff_mm b d pad loc * punching_d_eff_mm pad)) ≥
      punching_Vu_adj_N sq Pu b d ex ey al
  · rw [if_pos hs] at h
    cases h
    exact ⟨⟨fun _ => hs, fun _ => rfl⟩, by simp, by simp, by simp⟩
  · rw [if_neg hs, if_neg (punching_avden_ne pad)] at h
    cases h
    exact ⟨iff_of_false (by simp) hs, by simp, by simp, by simp⟩

/-- Claim C2 witness: evaluation at a concrete call. -/
theorem punching_safe_iff_cap_witness :
    ((pGetOk (punching_check_aci sqZero 100 300 300 500 25 0.75 "interior" 0 0 1)).punching_safe
        = true ↔
      punching_phiVc_N sqZero 300 300 500 25 0.75 "interior"
        ≥ punching_Vu_adj_N sqZero 100 300 300 0 0 1)
    ∧ ((pGetOk (punching_check_aci sqZero 100 300 300 500 25 0.75 "interior" 0 0 1)).needs_shear_reinf
        = true ↔
      (pGetOk (punching_check_aci sqZero 100 300 300 500 25 0.75 "interior" 0 0 1)).punching_safe
        = false)
    ∧ ((pGetOk (punching_check_aci sqZero 100 300 300 500 25 0.75 "interior" 0 0 1)).recommended_stirrup_dia_mm.isSome
        = true ↔
      (pGetOk (punching_check_aci sqZero 100 300 300 500 25 0.75 "interior" 0 0 1)).punching_safe
        = false)
    ∧ ((pGetOk (punching_check_aci sqZero 100 300 300 500 25 0.75 "interior" 0 0 1)).recommended_spacing_mm.isSome
        = true ↔
      (pGetOk (punching_check_aci sqZero 100 300 300 500 25 0.75 "interior" 0 0 1)).punching_safe
        = false) :=
  punching_safe_iff_cap sqZero 100 300 300 500 25 0.75 "interior" 0 0 1 _
    (punching_check_eq_some sqZero 100 300 300 500 25 0.75 "interior" 0 0 1)

/-- Claim C3: for positive load and soil pressure the computed required
bearing area equals `Pu_kN / soil_allow_kN_per_m2` exactly (the two `*1000`
unit conversions cancel). -/
theorem footing_A_req_cancellation (inp : FootingInput)
    (h1 : 0 < inp.Pu_kN) (h2 : 0 < inp.soil_allow_kN_per_m2) :
    footing_A_req_m2 inp = inp.Pu_kN / inp.soil_allow_kN_per_m2 := by
  unfold footing_A_req_m2
  rw [mul_div_mul_right _ _ (by norm_num : (1000:ℚ) ≠ 0)]

/-- Claim C3 witness: evaluation at a concrete input. -/
theorem footing_A_req_cancellation_witness :
    footing_A_req_m2 footing_witness_input
      = footing_witness_input.Pu_kN / footing_witness_input.soil_allow_kN_per_m2 :=
  footing_A_req_cancellation footing_witness_input
    (by norm_num [footing_witness_input]) (by norm_num [footing_witness_input])

/-- Claim C4: the sizing result never depends on the sub-checks (so a
sub-check failure never aborts the call), and whenever the punching or the
serviceability sub-check raises -- alone or together -- the exception is
caught and embedded as an error marker in exactly that sub-result's slot,
the other slot holding whatever its own sub-check returned. -/
theorem footing_subcheck_isolation (sq : ℚ → ℚ)
    (pf : ℚ → ℚ → ℚ → ℚ → ℚ → SubResult PunchResult)
    (cf : ℚ → ℚ → ℚ → SubResult CrackResult)
    (inp : FootingInput) :
    run_footing_design_with sq pf cf inp =
      mapFRes (fun r =>
          { r with
              punching := mapPunchSub (pf inp.Pu_kN (footing_col_b inp) (footing_col_d inp)
                inp.pad_depth_mm inp.fc_MPa),
              serviceability := mapCrackSub (cf (round_py 1 (footing_spacing inp))
                (footing_cover inp) (footing_stress_steel inp)) })
        (run_footing_design sq inp)
    ∧ (∀ e1, pf inp.Pu_kN (footing_col_b inp) (footing_col_d inp) inp.pad_depth_mm inp.fc_MPa
          = SubResult.error e1 →
        run_footing_design_with sq pf cf inp =
          mapFRes (fun r =>
              { r with
                  punching := SubResult.error ("punching check failed: " ++ e1),
                  serviceability := mapCrackSub (cf (round_py 1 (footing_spacing inp))
                    (footing_cover inp) (footing_stress_steel inp)) })
            (run_footing_design sq inp))
    ∧ (∀ e2, cf (round_py 1 (footing_spacing inp)) (footing_cover inp) (footing_stress_steel inp)
          = SubResult.error e2 →
        run_footing_design_with sq pf cf inp =
          mapFRes (fun r =>
              { r with
                  punching := mapPunchSub (pf inp.Pu_kN (footing_col_b inp) (footing_col_d inp)
                    inp.pad_depth_mm inp.fc_MPa),
                  serviceability := SubResult.error ("crack width check failed: " ++ e2) })
            (run_footing_design sq inp)) := by
  have hmain : run_footing_design_with sq pf cf inp =
      mapFRes (fun r =>
          { r with
              punching := mapPunchSub (pf inp.Pu_kN (footing_col_b inp) (footing_col_d inp)
                inp.pad_depth_mm inp.fc_MPa),
              serviceability := mapCrackSub (cf (round_py 1 (footing_spacing inp))
                (footing_cover inp) (footing_stress_steel inp)) })
        (run_footing_design sq inp) := by
    unfold run_footing_design run_footing_design_with mapFRes
    by_cases hq : inp.soil_allow_kN_per_m2 * 1000 ≤ 0
    · simp only [if_pos hq]
    · simp only [if_neg hq]
      by_cases hA : footing_A_req_m2 inp ≤ 0
      · simp only [if_pos hA]
      · simp only [if_neg hA]
        rcases htu : footing_topup sq inp with _ | pr <;> simp only [htu]
  refine ⟨hmain, ?_, ?_⟩
  · intro e1 h1
    have hrw : SubResult.error ("punching check failed: " ++ e1)
        = mapPunchSub (pf inp.Pu_kN (footing_col_b inp) (footing_col_d inp)
            inp.pad_depth_mm inp.fc_MPa) := by
      rw [h1]
      rfl
    rw [hrw]
    exact hmain
  · intro e2 h2
    have hrw : SubResult.error ("crack width check failed: " ++ e2)
        = mapCrackSub (cf (round_py 1 (footing_spacing inp)) (footing_cover inp)
            (footing_stress_steel inp)) := by
      rw [h2]
      rfl
    rw [hrw]
    exact hmain

/-- Claim C4 witness: the punching sub-check raises at a concrete input while
the serviceability sub-check succeeds; the failing slot carries the marker
and the sizing result is the ordinary one. -/
theorem footing_subcheck_isolation_witness :
    run_footing_design_with sqZero pfErr crack_sub footing_witness_input =
      mapFRes (fun r =>
          { r with
              punching := SubResult.error ("punching check failed: " ++ "boom"),
              serviceability := mapCrackSub (crack_sub
                (round_py 1 (footing_spacing footing_witness_input))
                (footing_cover footing_witness_input)
                (footing_stress_steel footing_witness_input)) })
        (run_footing_design sqZero footing_witness_input) :=
  (footing_subcheck_isolation sqZero pfErr crack_sub footing_witness_input).2.1 "boom" rfl

/-- Claim C5: for a two-column call (no truthy single load, both loads given,
positive loads and soil pressure) the total load is `P1+P2`, the required
area is `(P1+P2)/soil_allow`, the pad side is the square root of that area,
the engine is delegated a FootingInput with that load, column-1 geometry and
the computed side as assumed side, and the returned record reflects this. -/
theorem combined_two_column_spec (sq : ℚ → ℚ) {τ : Type} (tkf : DrawingParams → Option τ)
    (p : CombinedParams) (P1 P2 soil : ℚ)
    (hPu : truthy p.Pu_kN = false)
    (h1 : p.P1_kN = some P1) (h2 : p.P2_kN = some P2)
    (hs : p.soil_allow_kN_per_m2 = some soil)
    (h1p : 0 < P1) (h2p : 0 < P2) (hsp : 0 < soil) :
    combined_mode p = "two_column"
    ∧ combined_total_load p = P1 + P2
    ∧ combined_required_area p = (P1 + P2) / soil
    ∧ combined_pad_side sq p = sq (combined_required_area p)
    ∧ (combined_inp sq p).Pu_kN = P1 + P2
    ∧ (combined_inp sq p).col_b_mm = some (getOr p.col1_b_mm 300)
    ∧ (combined_inp sq p).col_d_mm = some (getOr p.col1_d_mm 300)
    ∧ (combined_inp sq p).assumed_side_m = some (combined_pad_side sq p)
    ∧ design_combined sq tkf p = CRes.ok (cGetOk (design_combined sq tkf p) p)
    ∧ (cGetOk (design_combined sq tkf p) p).results.mode = "two_column"
    ∧ (cGetOk (design_combined sq tkf p) p).results.total_load_kN = round_py 3 (P1 + P2)
    ∧ (cGetOk (design_combined sq tkf p) p).results.engine_results
        = frGetOk (run_footing_design sq (combined_inp sq p)) := by
  have hmode : combined_mode p = "two_column" := by
    unfold combined_mode
    rw [hPu]
    rfl
  have htl : combined_total_load p = P1 + P2 := by
    unfold combined_total_load
    rw [h1, h2, getOr_some_zero, getOr_some_zero]
  have hsoil : combined_soil p = soil := by
    unfold combined_soil
    rw [hs]
    exact getOr_some_of_ne (ne_of_gt hsp) 150
  have hra : combined_required_area p = (P1 + P2) / soil := by
    unfold combined_required_area
    rw [htl, hsoil, mul_div_mul_right _ _ (by norm_num : (1000:ℚ) ≠ 0)]
  have hbar : footing_bar_area (combined_inp sq p) ≠ 0 := by
    unfold footing_bar_area
    have hdia : footing_bar_dia (combined_inp sq p) = getOr p.bar_dia_mm 10 := rfl
    rw [hdia]
    exact mul_ne_zero (ne_of_gt piQ_pos)
      (pow_ne_zero 2 (div_ne_zero (getOr_ne_zero (by norm_num)) (by norm_num)))
  have hsoil' : 0 < (combined_inp sq p).soil_allow_kN_per_m2 := by
    show 0 < combined_soil p
    rw [hsoil]
    exact hsp
  have hAreq : footing_A_req_m2 (combined_inp sq p) = combined_required_area p := rfl
  have hApos : 0 < footing_A_req_m2 (combined_inp sq p) := by
    rw [hAreq, hra]
    exact div_pos (by linarith) hsp
  have hok := run_footing_design_ok sq (combined_inp sq p) hsoil' hApos hbar
  have hinp : (if combined_mode p = "single" then single_inp p else combined_inp sq p)
      = combined_inp sq p := by
    rw [hmode]
    rw [if_neg (by decide)]
  have hdt : design_total_load p = P1 + P2 := by
    unfold design_total_load
    rw [hmode, if_neg (by decide)]
    exact htl
  set er := frGetOk (run_footing_design sq (combined_inp sq p)) with her
  have hdc : design_combined sq tkf p
      = CRes.ok { inputs := p, results := combined_results_of sq tkf p er } := by
    unfold design_combined
    rw [hinp, hok]
  refine ⟨hmode, htl, hra, rfl, htl, rfl, rfl, rfl, ?_, ?_, ?_, ?_⟩
  · rw [hdc]
    rfl
  · rw [hdc]
    show combined_mode p = "two_column"
    exact hmode
  · rw [hdc]
    show round_py 3 (design_total_load p) = round_py 3 (P1 + P2)
    rw [hdt]
  · rw [hdc]
    rfl

/-- Claim C5 witness: a concrete two-column call. -/
theorem combined_two_column_spec_witness :
    combined_mode combined_witness_params = "two_column"
    ∧ combined_total_load combined_witness_params = 100 + 200
    ∧ combined_required_area combined_witness_params = (100 + 200) / 150
    ∧ combined_pad_side sqZero combined_witness_params
        = sqZero (combined_required_area combined_witness_params)
    ∧ (combined_inp sqZero combined_witness_params).Pu_kN = 100 + 200
    ∧ (combined_inp sqZero combined_witness_params).col_b_mm
        = some (getOr combined_witness_params.col1_b_mm 300)
    ∧ (combined_inp sqZero combined_witness_params).col_d_mm
        = some (getOr combined_witness_params.col1_d_mm 300)
    ∧ (combined_inp sqZero combined_witness_params).assumed_side_m
        = some (combined_pad_side sqZero combined_witness_params)
    ∧ design_combined sqZero (fun _ => (none : Option Unit)) combined_witness_params
        = CRes.ok (cGetOk (design_combined sqZero (fun _ => (none : Option Unit))
            combined_witness_params) combined_witness_params)
    ∧ (cGetOk (design_combined sqZero (fun _ => (none : Option Unit)) combined_witness_params)
        combined_witness_params).results.mode = "two_column"
    ∧ (cGetOk (design_combined sqZero (fun _ => (none : Option Unit)) combined_witness_params)
        combined_witness_params).results.total_load_kN = round_py 3 (100 + 200)
    ∧ (cGetOk (design_combined sqZero (fun _ => (none : Option Unit)) combined_witness_params)
        combined_witness_params).results.engine_results
        = frGetOk (run_footing_design sqZero (combined_inp sqZero combined_witness_params)) :=
  combined_two_column_spec sqZero (fun _ => none) combined_witness_params 100 200 150
    rfl rfl rfl rfl (by norm_num) (by norm_num) (by norm_num)

/-- Claim C6 counterexample: with spacing 10 and cover 25 the clamped spacing
is below twice the clamped cover, so raising the steel stress from 0 to 100
strictly decreases the estimated crack width, refuting unconditional strict
monotonicity. -/
theorem crack_width_monotonic_counterexample :
    (0:ℚ) < 100 ∧ crack_w_mm 10 25 100 12 1 < crack_w_mm 10 25 0 12 1 := by
  constructor
  · norm_num
  · norm_num [crack_w_mm, max_def]

/-- Claim C6 (amended): the crack-width estimate is strictly increasing in
steel stress provided the clamped spacing exceeds twice the clamped cover,
the k-factor is positive, and the stresses are at or above the zero clamp. -/
theorem crack_width_monotone_in_stress (sp cov dbar k s1 s2 : ℚ)
    (hsc : 2 * max 5 cov < max 10 sp) (hk : 0 < k) (h0 : 0 ≤ s1) (h12 : s1 < s2) :
    crack_w_mm sp cov s1 dbar k < crack_w_mm sp cov s2 dbar k := by
  unfold crack_w_mm
  rw [max_eq_right h0, max_eq_right (h0.trans h12.le)]
  have hpos : 0 < k * 0.00018 * (max 10 sp - 2 * max 5 cov) :=
    mul_pos (mul_pos hk (by norm_num)) (by linarith)
  exact (mul_lt_mul_left hpos).2 h12

/-- Claim C6 witness: evaluation at concrete spacing 150, cover 25. -/
theorem crack_width_monotone_in_stress_witness :
    crack_w_mm 150 25 100 12 1 < crack_w_mm 150 25 200 12 1 :=
  crack_width_monotone_in_stress 150 25 12 1 100 200 (by norm_num [max_def]) (by norm_num)
    (by norm_num) (by norm_num)

/-- Claim C7: the engine fails with an `InvalidInput` error exactly when the
soil pressure is non-positive or the computed required area is non-positive. -/
theorem footing_invalid_input_iff (sq : ℚ → ℚ) (inp : FootingInput) :
    (∃ msg, run_footing_design sq inp = FRes.error (FootErr.invalidInput msg)) ↔
      (inp.soil_allow_kN_per_m2 ≤ 0 ∨ footing_A_req_m2 inp ≤ 0) := by
  unfold run_footing_design run_footing_design_with
  by_cases hq : inp.soil_allow_kN_per_m2 * 1000 ≤ 0
  · rw [if_pos hq]
    constructor
    · intro _; left; linarith
    · intro _; exact ⟨_, rfl⟩
  · rw [if_neg hq]
    by_cases hA : footing_A_req_m2 inp ≤ 0
    · rw [if_pos hA]
      constructor
      · intro _; right; exact hA
      · intro _; exact ⟨_, rfl⟩
    · rw [if_neg hA]
      constructor
      · intro hex
        rcases hex with ⟨msg, hmsg⟩
        rcases htu : footing_topup sq inp with _ | pr <;> rw [htu] at hmsg <;> cases hmsg
      · intro hor
        rcases hor with hsle | hA'
        · exact absurd (by nlinarith : inp.soil_allow_kN_per_m2 * 1000 ≤ 0) hq
        · exact absurd hA' hA

/-- Claim C8: with reports disabled the engine is a pure function of its
input record: structurally identical inputs give identical results. -/
theorem footing_deterministic (sq : ℚ → ℚ) (i1 i2 : FootingInput) (h : i1 = i2) :
    run_footing_design sq i1 = run_footing_design sq i2 := by rw [h]

/-- Claim C8 witness. -/
theorem footing_deterministic_witness :
    run_footing_design sqZero footing_witness_input
      = run_footing_design sqZero footing_witness_input :=
  footing_deterministic sqZero footing_witness_input footing_witness_input rfl

/-- Claim C9: the punching check is total: the clamps on the column sides,
pad depth, effective depth, `fc`, the eccentricity denominator, and the
utilization fallback rule out every division by zero and every square root
of a negative number. -/
theorem punching_check_total (sq : ℚ → ℚ) (Pu b d pad fc phi : ℚ) (loc : String)
    (ex ey al : ℚ) :
    (punching_check_aci sq Pu b d pad fc phi loc ex ey al).isSome = true := by
  unfold punching_check_aci
  rw [if_pos (punching_bd_nonneg b d), if_neg (punching_den_ne sq b d),
      if_neg (punching_b0e_de_ne b d pad loc), if_pos (punching_fc_nonneg fc)]
  by_cases hs : phi * (punching_vc_MPa sq fc *
      (punching_b0_eff_mm b d pad loc * punching_d_eff_mm pad)) ≥
      punching_Vu_adj_N sq Pu b d ex ey al
  · rw [if_pos hs]; rfl
  · rw [if_neg hs, if_neg (punching_avden_ne pad)]; rfl

/-- Claim C10: when the clamped spacing is at most twice the clamped cover,
the crack-width estimate is non-positive for every non-negative k-factor and
any steel stress, so the check reports ok. -/
theorem crack_width_corner_always_ok (sp cov st dbar k : ℚ)
    (hsc : max 10 sp ≤ 2 * max 5 cov) (hk : 0 ≤ k) :
    crack_w_mm sp cov st dbar k ≤ 0 ∧ (crack_width_check sp cov st dbar k).ok = true := by
  have hw : crack_w_mm sp cov st dbar k ≤ 0 := by
    unfold crack_w_mm
    have hkk : (0:ℚ) ≤ k * 0.00018 := mul_nonneg hk (by norm_num)
    have hneg : max 10 sp - 2 * max 5 cov ≤ 0 := by linarith
    have hgrp : k * 0.00018 * (max 10 sp - 2 * max 5 cov) ≤ 0 :=
      mul_nonpos_iff.mpr (Or.inl ⟨hkk, hneg⟩)
    exact mul_nonpos_iff.mpr (Or.inr ⟨hgrp, le_max_left 0 st⟩)
  refine ⟨hw, ?_⟩
  show decide (crack_w_mm sp cov st dbar k ≤ 0.3) = true
  exact decide_eq_true (hw.trans (by norm_num))

/-- Claim C10 witness: the spacing-10 / cover-25 corner with a huge stress. -/
theorem crack_width_corner_always_ok_witness :
    crack_w_mm 10 25 1000000 12 1 ≤ 0 ∧ (crack_width_check 10 25 1000000 12 1).ok = true :=
  crack_width_corner_always_ok 10 25 1000000 12 1 (by norm_num [max_def]) (by norm_num)
